import Mathlib

/-!
Verification of the Sr-90 experiment simulator (simulator.js and the React
front-end App component). The particle simulation and dose-field engine is
embedded shallowly: the closed-form dose model, the particle data model, the
per-tick interaction resolver, the background-photon emitter, the heatmap
field sampler and the reset handlers, each translated from the source.
Randomness (Math.random draws in [0,1)) is passed in as explicit real
parameters in call order.
-/

namespace Sr90

/-! ## Rendering and physics constants (simulator.js lines 1-19) -/

noncomputable def CANVAS_WIDTH : ℝ := 800
noncomputable def CANVAS_HEIGHT : ℝ := 400
noncomputable def CENTER_Y : ℝ := CANVAS_HEIGHT / 2
noncomputable def PX_PER_CM : ℝ := 4
noncomputable def SOURCE_X : ℝ := 80
noncomputable def SOURCE_TO_PMMA_CM : ℝ := 10
noncomputable def PMMA_X : ℝ := SOURCE_X + SOURCE_TO_PMMA_CM * PX_PER_CM
noncomputable def PMMA_VISUAL_THICKNESS : ℝ := 10
noncomputable def PMMA_HEIGHT : ℝ := 150
noncomputable def DETECTOR_WIDTH : ℝ := 30
noncomputable def DETECTOR_HEIGHT : ℝ := 60

noncomputable def K_CONST : ℝ := 0.17
noncomputable def MU_CONST : ℝ := 0.02
noncomputable def B_CONST : ℝ := 0.15

/-! ## DoseModel (simulator.js calculateDose, lines 317-329; identical formula
in the React front-end). The pure dose before the multiplicative display
noise: background, plus the attenuated inverse-square source term when the
source is open, with the distance in cm clamped to at least 1 cm before the
conversion to meters. -/

noncomputable def calculateDose (distanceCm : ℝ) (sourceOpen : Bool) : ℝ :=
  let base := B_CONST
  if sourceOpen then
    let d := max distanceCm 1 / 100
    let attenuation := Real.exp (-MU_CONST * d)
    let geometricLoss := d * d
    let sourceContribution := K_CONST * attenuation / geometricLoss
    base + sourceContribution
  else base

/-- The open-source contribution is strictly smaller at the larger of two
positive distances (in meters): shared monotonicity core for the dose model
and the field sampler. -/
lemma sourceContribution_lt {m1 m2 : ℝ} (h0 : 0 < m1) (h12 : m1 < m2) :
    K_CONST * Real.exp (-MU_CONST * m2) / (m2 * m2)
      < K_CONST * Real.exp (-MU_CONST * m1) / (m1 * m1) := by
  have hK : (0 : ℝ) < K_CONST := by norm_num [K_CONST]
  have hmu : (0 : ℝ) < MU_CONST := by norm_num [MU_CONST]
  have h02 : (0 : ℝ) < m2 := lt_trans h0 h12
  have hexp : Real.exp (-MU_CONST * m2) < Real.exp (-MU_CONST * m1) := by
    apply Real.exp_lt_exp.mpr
    nlinarith
  have hexp2 : (0 : ℝ) < Real.exp (-MU_CONST * m2) := Real.exp_pos _
  have hsq : m1 * m1 < m2 * m2 := by nlinarith
  rw [div_lt_div_iff₀ (by positivity) (by positivity)]
  have h1 : K_CONST * Real.exp (-MU_CONST * m2) < K_CONST * Real.exp (-MU_CONST * m1) :=
    (mul_lt_mul_left hK).mpr hexp
  have h2 : (0 : ℝ) < K_CONST * Real.exp (-MU_CONST * m2) := by positivity
  have h3 : (0 : ℝ) ≤ m1 * m1 := by positivity
  exact mul_lt_mul'' h1 hsq h2.le h3

/-- C1: for every distance (cm) and source flag, the pure dose equals the
background constant 0.15 when the source is shielded, and
0.15 + 0.17 * exp(-0.02 * dm) / dm^2 when the source is open, where
dm = max(distance, 1) / 100 meters: the distance is clamped to a minimum of
0.01 m and never rejected. -/
theorem calculateDose_formula (d : ℝ) :
    calculateDose d false = 0.15
    ∧ calculateDose d true
        = 0.15 + 0.17 * Real.exp (-(0.02) * (max d 1 / 100)) / (max d 1 / 100) ^ 2 := by
  constructor
  · simp [calculateDose, B_CONST]
  · simp only [calculateDose, K_CONST, MU_CONST, B_CONST, if_true]
    ring_nf

/-- C2: at distance 80 cm with the source open, the pure dose is exactly
0.15 + 0.17 * exp(-0.02 * 0.8) / 0.8^2, and this value rounds to 0.411 at
three decimal places (it lies strictly within 0.0005 of 0.411). -/
theorem calculateDose_at_80 :
    calculateDose 80 true = 0.15 + 0.17 * Real.exp (-(0.02) * 0.8) / 0.8 ^ 2
    ∧ |calculateDose 80 true - 0.411| < 0.0005 := by
  have hmax : max (80 : ℝ) 1 = 80 := max_eq_left (by norm_num)
  have hval : calculateDose 80 true = 0.15 + 0.17 * Real.exp (-(0.016)) / (0.8 * 0.8) := by
    simp only [calculateDose, K_CONST, MU_CONST, B_CONST, if_true, hmax]
    norm_num
  have hlo : (0.984 : ℝ) ≤ Real.exp (-(0.016)) := by
    have h := Real.add_one_le_exp (-(0.016) : ℝ)
    linarith
  have hhi : Real.exp (-(0.016)) ≤ 1 / 1.016 := by
    have h := Real.add_one_le_exp ((0.016) : ℝ)
    have hpos : (0 : ℝ) < 1.016 := by norm_num
    have h2 : (1.016 : ℝ) ≤ Real.exp 0.016 := by linarith
    have h3 : Real.exp (-(0.016)) = (Real.exp 0.016)⁻¹ := by
      rw [← Real.exp_neg]
    rw [h3, ← one_div]
    apply one_div_le_one_div_of_le hpos h2
  have heq : calculateDose 80 true - 0.411 = (17 / 64) * Real.exp (-(0.016)) - 0.261 := by
    rw [hval]; ring
  constructor
  · rw [hval]; norm_num
  · rw [abs_lt]
    constructor <;> linarith [heq, hlo, hhi]

/-- C3: with the source open, the pure dose is strictly decreasing in the
distance on the unclamped domain: whenever 1 cm <= d1 < d2 (so both convert
to meter distances of at least 0.01 m without clamping), the dose at d2 is
strictly below the dose at d1. -/
theorem calculateDose_strictAnti (d1 d2 : ℝ) (h1 : 1 ≤ d1) (h12 : d1 < d2) :
    calculateDose d2 true < calculateDose d1 true := by
  have hm1 : max d1 1 = d1 := max_eq_left h1
  have hm2 : max d2 1 = d2 := max_eq_left (le_trans h1 h12.le)
  simp only [calculateDose, if_true, hm1, hm2]
  have hcontrib : K_CONST * Real.exp (-MU_CONST * (d2 / 100)) / (d2 / 100 * (d2 / 100))
      < K_CONST * Real.exp (-MU_CONST * (d1 / 100)) / (d1 / 100 * (d1 / 100)) := by
    apply sourceContribution_lt
    · linarith
    · linarith
  linarith

/-- Witness for C3 at the concrete pair 80 cm < 100 cm. -/
theorem calculateDose_strictAnti_witness :
    (1 : ℝ) ≤ 80 ∧ (80 : ℝ) < 100 ∧ calculateDose 100 true < calculateDose 80 true :=
  ⟨by norm_num, by norm_num, calculateDose_strictAnti 80 100 (by norm_num) (by norm_num)⟩

/-! ## Particle data model (simulator.js lines 44-56; App Particle interface).
The id field carries the Math.random draw made at spawn time and is never
read by the engine. -/

inductive PKind where
  | beta
  | photon
  | backgroundPhoton
deriving DecidableEq

structure Particle where
  id : ℝ
  x : ℝ
  y : ℝ
  vx : ℝ
  vy : ℝ
  kind : PKind
  life : ℤ
  history : List (ℝ × ℝ)

/-! ## Geometry predicates of updateParticles (simulator.js lines 100-150).
The branch conditions compare real coordinates, so the embedding uses
classical decidability for its if-then-else branches. -/

open Classical

noncomputable def detectorXpos (distanceCm : ℝ) : ℝ :=
  PMMA_X + PMMA_VISUAL_THICKNESS + distanceCm * PX_PER_CM

/-- The attenuator slab test of lines 113-119, applied to the updated
position. -/
noncomputable def inSlab (x y : ℝ) : Prop :=
  x ≥ PMMA_X ∧ x ≤ PMMA_X + PMMA_VISUAL_THICKNESS
    ∧ y > CENTER_Y - PMMA_HEIGHT / 2 ∧ y < CENTER_Y + PMMA_HEIGHT / 2

/-- The detector test of lines 130-135; the x-range is recomputed from the
live distance each tick. -/
noncomputable def inDetector (distanceCm x y : ℝ) : Prop :=
  x ≥ detectorXpos distanceCm ∧ x ≤ detectorXpos distanceCm + DETECTOR_WIDTH
    ∧ y ≥ CENTER_Y - DETECTOR_HEIGHT / 2 ∧ y ≤ CENTER_Y + DETECTOR_HEIGHT / 2

/-- The boundary cleanup test of line 142: scene bounds expanded by 20. -/
noncomputable def outOfBounds (x y : ℝ) : Prop :=
  x < -20 ∨ x > CANVAS_WIDTH + 20 ∨ y < -20 ∨ y > CANVAS_HEIGHT + 20

/-- The random Bremsstrahlung emission angle of line 120:
(Math.random() - 0.5) * (Math.PI / 1.5). -/
noncomputable def scatterAngle (r : ℝ) : ℝ :=
  (r - 0.5) * (Real.pi / 1.5)

/-! ## InteractionResolver: one tick of updateParticles for one particle,
split into the stages of the forEach body (simulator.js lines 105-144). -/

/-- Lines 106-108: Euler step and life decrement. -/
noncomputable def moveParticle (p : Particle) : Particle :=
  { p with x := p.x + p.vx, y := p.y + p.vy, life := p.life - 1 }

/-- Lines 110-111: append the current position, evict the oldest entry when
the length exceeds 10. -/
def pushTrail (h : List (ℝ × ℝ)) (pos : ℝ × ℝ) : List (ℝ × ℝ) :=
  let h2 := h ++ [pos]
  if h2.length > 10 then h2.tail else h2

def recordTrail (p : Particle) : Particle :=
  { p with history := pushTrail p.history (p.x, p.y) }

/-- Lines 113-127: a Beta inside the slab becomes a Photon with a cleared
trail, a fresh velocity of magnitude 4 at the scatter angle, and life 400. -/
noncomputable def interactSlab (r : ℝ) (p : Particle) : Particle :=
  if p.kind = PKind.beta ∧ inSlab p.x p.y then
    { p with
      kind := PKind.photon
      history := []
      vx := Real.cos (scatterAngle r) * 4
      vy := Real.sin (scatterAngle r) * 4
      life := 400 }
  else p

/-- Lines 129-140: a Photon or BackgroundPhoton inside the detector is
counted (second component true) and absorbed (life forced to 0). -/
noncomputable def interactDetector (distanceCm : ℝ) (p : Particle) : Particle × Bool :=
  if (p.kind = PKind.photon ∨ p.kind = PKind.backgroundPhoton)
      ∧ inDetector distanceCm p.x p.y then
    ({ p with life := 0 }, true)
  else (p, false)

/-- Lines 142-144: expire particles that left the expanded scene bounds. -/
noncomputable def cleanupBounds (p : Particle) : Particle :=
  if outOfBounds p.x p.y then { p with life := 0 } else p

/-- The full per-particle body of updateParticles; r is the Math.random draw
consumed if the slab conversion fires. -/
noncomputable def stepParticle (distanceCm r : ℝ) (p : Particle) : Particle × Bool :=
  let moved := recordTrail (moveParticle p)
  let afterSlab := interactSlab r moved
  let det := interactDetector distanceCm afterSlab
  (cleanupBounds det.1, det.2)

/-- updateParticles over the whole store (simulator.js lines 100-150): each
particle is stepped with its own random draw, counts grows by the number of
detections, and particles with life <= 0 are removed in the same pass. -/
noncomputable def updateParticles (distanceCm : ℝ) (prs : List (Particle × ℝ))
    (counts : ℕ) : List Particle × ℕ :=
  let stepped := prs.map fun q => stepParticle distanceCm q.2 q.1
  ((stepped.map Prod.fst).filter fun q => decide (0 < q.life),
    counts + stepped.countP Prod.snd)

/-- Iterated per-particle evolution across ticks, one random draw per tick. -/
noncomputable def evolve (distanceCm : ℝ) (rs : List ℝ) (p : Particle) : Particle :=
  rs.foldl (fun q r2 => (stepParticle distanceCm r2 q).1) p

/-! ## Stage lemmas for the interaction resolver -/

lemma stepParticle_eq (d r : ℝ) (p : Particle) :
    stepParticle d r p
      = (cleanupBounds (interactDetector d (interactSlab r (recordTrail (moveParticle p)))).1,
         (interactDetector d (interactSlab r (recordTrail (moveParticle p)))).2) := rfl

lemma interactSlab_of_ne_beta (r : ℝ) (p : Particle) (h : p.kind ≠ PKind.beta) :
    interactSlab r p = p := by
  unfold interactSlab
  rw [if_neg]
  exact fun hc => h hc.1

lemma interactDetector_fst_frame (d : ℝ) (p : Particle) :
    (interactDetector d p).1.kind = p.kind ∧ (interactDetector d p).1.history = p.history
      ∧ (interactDetector d p).1.vx = p.vx ∧ (interactDetector d p).1.vy = p.vy := by
  unfold interactDetector
  split_ifs <;> exact ⟨rfl, rfl, rfl, rfl⟩

lemma cleanupBounds_frame (p : Particle) :
    (cleanupBounds p).kind = p.kind ∧ (cleanupBounds p).history = p.history
      ∧ (cleanupBounds p).vx = p.vx ∧ (cleanupBounds p).vy = p.vy := by
  unfold cleanupBounds
  split_ifs <;> exact ⟨rfl, rfl, rfl, rfl⟩

lemma cleanupBounds_life_zero (p : Particle) (h : p.life = 0) :
    (cleanupBounds p).life = 0 := by
  unfold cleanupBounds
  split_ifs <;> simp [h]

/-- A particle that is not a Beta keeps its kind through one whole step. -/
lemma stepParticle_kind_of_ne_beta (d r : ℝ) (p : Particle) (h : p.kind ≠ PKind.beta) :
    (stepParticle d r p).1.kind = p.kind := by
  rw [stepParticle_eq]
  have hmk : (recordTrail (moveParticle p)).kind = p.kind := rfl
  rw [interactSlab_of_ne_beta r _ (by rw [hmk]; exact h)]
  rw [(cleanupBounds_frame _).1, (interactDetector_fst_frame _ _).1, hmk]

/-- A Beta whose updated position lies in the slab converts: kind Photon,
trail cleared, velocity 4 at the scatter angle, life 400. -/
lemma stepParticle_beta_slab (d r : ℝ) (p : Particle) (hb : p.kind = PKind.beta)
    (hs : inSlab (p.x + p.vx) (p.y + p.vy)) :
    (stepParticle d r p).1.kind = PKind.photon
      ∧ (stepParticle d r p).1.history = []
      ∧ (stepParticle d r p).1.vx = Real.cos (scatterAngle r) * 4
      ∧ (stepParticle d r p).1.vy = Real.sin (scatterAngle r) * 4 := by
  have hcond : (recordTrail (moveParticle p)).kind = PKind.beta
      ∧ inSlab (recordTrail (moveParticle p)).x (recordTrail (moveParticle p)).y := ⟨hb, hs⟩
  rw [stepParticle_eq]
  unfold interactSlab
  rw [if_pos hcond]
  refine ⟨?_, ?_, ?_, ?_⟩
  · rw [(cleanupBounds_frame _).1, (interactDetector_fst_frame _ _).1]
  · rw [(cleanupBounds_frame _).2.1, (interactDetector_fst_frame _ _).2.1]
  · rw [(cleanupBounds_frame _).2.2.1, (interactDetector_fst_frame _ _).2.2.1]
  · rw [(cleanupBounds_frame _).2.2.2, (interactDetector_fst_frame _ _).2.2.2]

/-- C4: the Beta to Photon transition happens at most once. A Beta whose
updated position lies in the attenuator slab becomes a Photon with a cleared
trail and a fresh velocity of magnitude 4 at the random scatter angle; a
particle whose kind is not Beta (Photon or BackgroundPhoton), wherever it
is, keeps its kind through one step and through any number of later ticks. -/
theorem beta_transition_at_most_once (d r : ℝ) (rs : List ℝ) (p : Particle) :
    (p.kind ≠ PKind.beta → (stepParticle d r p).1.kind = p.kind)
    ∧ (p.kind = PKind.beta → inSlab (p.x + p.vx) (p.y + p.vy) →
        (stepParticle d r p).1.kind = PKind.photon
          ∧ (stepParticle d r p).1.history = []
          ∧ (stepParticle d r p).1.vx = Real.cos (scatterAngle r) * 4
          ∧ (stepParticle d r p).1.vy = Real.sin (scatterAngle r) * 4)
    ∧ (p.kind ≠ PKind.beta → (evolve d rs p).kind = p.kind) := by
  refine ⟨fun h => stepParticle_kind_of_ne_beta d r p h,
    fun hb hs => stepParticle_beta_slab d r p hb hs, ?_⟩
  intro h
  induction rs generalizing p with
  | nil => rfl
  | cons r2 rs ih =>
      have hstep := stepParticle_kind_of_ne_beta d r2 p h
      have : (evolve d (r2 :: rs) p) = evolve d rs (stepParticle d r2 p).1 := rfl
      rw [this, ih _ (by rw [hstep]; exact h), hstep]

/-! ## Concrete particles used in witnesses -/

/-- A Photon flying inside the detector region for distance 80 cm
(detector x-range there is 450..480). -/
noncomputable def pPhotonDet : Particle :=
  { id := 0, x := 454, y := 200, vx := 1, vy := 0, kind := PKind.photon,
    life := 100, history := [] }

/-- A Beta about to land inside the attenuator slab (updated position
(125, 200)). -/
noncomputable def pBetaSlab : Particle :=
  { id := 0, x := 124, y := 200, vx := 1, vy := 0, kind := PKind.beta,
    life := 200, history := [] }

/-- Witness for C4: a concrete Photon keeps its kind through one step and
through two further ticks. -/
theorem beta_transition_at_most_once_witness :
    pPhotonDet.kind ≠ PKind.beta
    ∧ (stepParticle 80 (1 / 2) pPhotonDet).1.kind = pPhotonDet.kind
    ∧ (evolve 80 [1 / 2, 1 / 2] pPhotonDet).kind = pPhotonDet.kind := by
  have hk : pPhotonDet.kind ≠ PKind.beta := fun hcon => PKind.noConfusion hcon
  have h := beta_transition_at_most_once 80 (1 / 2) [1 / 2, 1 / 2] pPhotonDet
  exact ⟨hk, h.1 hk, h.2.2 hk⟩

/-! ## Detector interaction and counting -/

/-- A Photon or BackgroundPhoton whose updated position falls in the
detector is flagged as detected and has its life forced to 0. -/
lemma stepParticle_detected (d r : ℝ) (p : Particle)
    (hk : p.kind = PKind.photon ∨ p.kind = PKind.backgroundPhoton)
    (hd : inDetector d (p.x + p.vx) (p.y + p.vy)) :
    (stepParticle d r p).2 = true ∧ (stepParticle d r p).1.life = 0 := by
  rw [stepParticle_eq]
  have hmk : (recordTrail (moveParticle p)).kind = p.kind := rfl
  have hne : (recordTrail (moveParticle p)).kind ≠ PKind.beta := by
    rw [hmk]; rcases hk with h | h <;> simp [h]
  rw [interactSlab_of_ne_beta r _ hne]
  have hcond : ((recordTrail (moveParticle p)).kind = PKind.photon
        ∨ (recordTrail (moveParticle p)).kind = PKind.backgroundPhoton)
      ∧ inDetector d (recordTrail (moveParticle p)).x (recordTrail (moveParticle p)).y :=
    ⟨hk, hd⟩
  unfold interactDetector
  rw [if_pos hcond]
  exact ⟨rfl, cleanupBounds_life_zero _ rfl⟩

/-- Every particle kept in the store after a tick has positive life. -/
lemma updateParticles_mem_life_pos (d : ℝ) (prs : List (Particle × ℝ)) (c : ℕ) :
    ∀ q ∈ (updateParticles d prs c).1, 0 < q.life := by
  intro q hq
  unfold updateParticles at hq
  rw [List.mem_filter] at hq
  exact of_decide_eq_true hq.2

/-- C5: a Photon or BackgroundPhoton whose updated position lies in the
detector rectangle (x-range derived from the live distance) is counted and
absorbed: the cumulative counter grows by exactly the number of detections
in the tick, the detected particle's life is forced to 0, the store after
the tick holds only particles with positive life, and the detected particle
is removed from the store in that same tick (so it can never be counted
again). -/
theorem detector_count_and_removal (d : ℝ) (prs : List (Particle × ℝ)) (c : ℕ) :
    ((updateParticles d prs c).2 = c + prs.countP fun q => (stepParticle d q.2 q.1).2)
    ∧ (∀ (p : Particle) (r : ℝ),
        (p.kind = PKind.photon ∨ p.kind = PKind.backgroundPhoton) →
        inDetector d (p.x + p.vx) (p.y + p.vy) →
        (stepParticle d r p).2 = true ∧ (stepParticle d r p).1.life = 0)
    ∧ (∀ q ∈ (updateParticles d prs c).1, 0 < q.life)
    ∧ (∀ (p : Particle) (r : ℝ),
        (p.kind = PKind.photon ∨ p.kind = PKind.backgroundPhoton) →
        inDetector d (p.x + p.vx) (p.y + p.vy) →
        (stepParticle d r p).1 ∉ (updateParticles d prs c).1) := by
  refine ⟨?_, fun p r hk hd => stepParticle_detected d r p hk hd,
    updateParticles_mem_life_pos d prs c, ?_⟩
  · show c + List.countP Prod.snd (List.map (fun q => stepParticle d q.2 q.1) prs)
      = c + List.countP (fun q => (stepParticle d q.2 q.1).2) prs
    rw [List.countP_map]
    rfl
  · intro p r hk hd hmem
    have hzero := (stepParticle_detected d r p hk hd).2
    have hpos := updateParticles_mem_life_pos d prs c _ hmem
    rw [hzero] at hpos
    exact lt_irrefl 0 hpos

/-- Witness for C5: the concrete Photon inside the detector at distance
80 cm is detected, absorbed and removed. -/
theorem detector_count_and_removal_witness :
    (pPhotonDet.kind = PKind.photon ∨ pPhotonDet.kind = PKind.backgroundPhoton)
    ∧ inDetector 80 (pPhotonDet.x + pPhotonDet.vx) (pPhotonDet.y + pPhotonDet.vy)
    ∧ ((stepParticle 80 0 pPhotonDet).2 = true ∧ (stepParticle 80 0 pPhotonDet).1.life = 0)
    ∧ (stepParticle 80 0 pPhotonDet).1 ∉ (updateParticles 80 [] 0).1 := by
  have hk : pPhotonDet.kind = PKind.photon ∨ pPhotonDet.kind = PKind.backgroundPhoton :=
    Or.inl rfl
  have hd : inDetector 80 (pPhotonDet.x + pPhotonDet.vx) (pPhotonDet.y + pPhotonDet.vy) := by
    unfold inDetector detectorXpos pPhotonDet
    norm_num [PMMA_X, SOURCE_X, SOURCE_TO_PMMA_CM, PX_PER_CM, PMMA_VISUAL_THICKNESS,
      CENTER_Y, CANVAS_HEIGHT, DETECTOR_WIDTH, DETECTOR_HEIGHT]
  have h := detector_count_and_removal 80 ([] : List (Particle × ℝ)) 0
  exact ⟨hk, hd, h.2.1 pPhotonDet 0 hk hd, h.2.2.2 pPhotonDet 0 hk hd⟩

/-! ## Trail bounds -/

lemma pushTrail_eq (h : List (ℝ × ℝ)) (pos : ℝ × ℝ) :
    pushTrail h pos
      = if (h ++ [pos]).length > 10 then (h ++ [pos]).tail else h ++ [pos] := rfl

lemma pushTrail_length_le (h : List (ℝ × ℝ)) (pos : ℝ × ℝ) (hle : h.length ≤ 10) :
    (pushTrail h pos).length ≤ 10 := by
  rw [pushTrail_eq]
  split_ifs with hgt <;> simp_all

/-- One step either clears the trail (slab conversion) or pushes the new
position through the bounded queue. -/
lemma stepParticle_history (d r : ℝ) (p : Particle) :
    (stepParticle d r p).1.history = []
      ∨ (stepParticle d r p).1.history = pushTrail p.history (p.x + p.vx, p.y + p.vy) := by
  rw [stepParticle_eq]
  rw [(cleanupBounds_frame _).2.1, (interactDetector_fst_frame _ _).2.1]
  unfold interactSlab
  split_ifs with hc
  · exact Or.inl rfl
  · exact Or.inr rfl

/-- C6: no trail ever exceeds 10 recorded positions. A tick appends the new
position and evicts the oldest entry exactly when the trail would exceed 10
(append-only at length up to 9, append-and-drop-head at length 10 or more),
and whenever the particle's kind changes the trail is reset to empty. -/
theorem trail_bounded (d r : ℝ) (p : Particle) :
    (p.history.length ≤ 10 → (stepParticle d r p).1.history.length ≤ 10)
    ∧ ((stepParticle d r p).1.kind ≠ p.kind → (stepParticle d r p).1.history = [])
    ∧ (∀ (h : List (ℝ × ℝ)) (pos : ℝ × ℝ), h.length ≤ 9 → pushTrail h pos = h ++ [pos])
    ∧ (∀ (h : List (ℝ × ℝ)) (pos : ℝ × ℝ), 10 ≤ h.length →
        pushTrail h pos = (h ++ [pos]).tail) := by
  refine ⟨?_, ?_, ?_, ?_⟩
  · intro hle
    rcases stepParticle_history d r p with he | he <;> rw [he]
    · simp
    · exact pushTrail_length_le _ _ hle
  · intro hkind
    rw [stepParticle_eq] at hkind ⊢
    rw [(cleanupBounds_frame _).2.1, (interactDetector_fst_frame _ _).2.1]
    rw [(cleanupBounds_frame _).1, (interactDetector_fst_frame _ _).1] at hkind
    unfold interactSlab at hkind ⊢
    split_ifs at hkind ⊢ with hc
    · rfl
    · exact absurd rfl hkind
  · intro h pos hle
    rw [pushTrail_eq, if_neg]
    simp only [List.length_append, List.length_cons, List.length_nil]
    omega
  · intro h pos hge
    rw [pushTrail_eq, if_pos]
    simp only [List.length_append, List.length_cons, List.length_nil]
    omega

/-- Witness for C6: the concrete Beta's empty trail stays within the bound,
and a length-10 trail evicts its oldest entry. -/
theorem trail_bounded_witness :
    pBetaSlab.history.length ≤ 10
    ∧ (stepParticle 80 0 pBetaSlab).1.history.length ≤ 10 := by
  have h := trail_bounded 80 0 pBetaSlab
  exact ⟨by simp [pBetaSlab], h.1 (by simp [pBetaSlab])⟩

/-! ## Converted photon velocity -/

/-- C10: when a Beta converts at the slab, the fresh velocity has magnitude
exactly 4 (vx^2 + vy^2 = 16) and horizontal component vx at least 2, for
every random draw in [0, 1): the scatter angle lies within plus-minus 60
degrees of the forward axis, so a converted Photon always travels toward
the detector side. -/
theorem photon_speed_forward (d r : ℝ) (p : Particle) (h0 : 0 ≤ r) (h1 : r < 1)
    (hb : p.kind = PKind.beta) (hs : inSlab (p.x + p.vx) (p.y + p.vy)) :
    (stepParticle d r p).1.vx ^ 2 + (stepParticle d r p).1.vy ^ 2 = 16
    ∧ 2 ≤ (stepParticle d r p).1.vx := by
  obtain ⟨-, -, hvx, hvy⟩ := stepParticle_beta_slab d r p hb hs
  rw [hvx, hvy]
  constructor
  · nlinarith [Real.sin_sq_add_cos_sq (scatterAngle r)]
  · have habs : |scatterAngle r| ≤ Real.pi / 3 := by
      unfold scatterAngle
      rw [abs_mul]
      have h2 : |r - 0.5| ≤ 0.5 := abs_le.mpr ⟨by linarith, by linarith⟩
      have h3 : |Real.pi / 1.5| = Real.pi / 1.5 := abs_of_pos (by positivity)
      rw [h3]
      calc |r - 0.5| * (Real.pi / 1.5)
          ≤ 0.5 * (Real.pi / 1.5) := mul_le_mul_of_nonneg_right h2 (by positivity)
        _ = Real.pi / 3 := by ring
    have hcos : Real.cos (Real.pi / 3) ≤ Real.cos (scatterAngle r) := by
      rw [← Real.cos_abs (scatterAngle r)]
      exact Real.cos_le_cos_of_nonneg_of_le_pi (abs_nonneg _)
        (by linarith [Real.pi_pos]) habs
    rw [Real.cos_pi_div_three] at hcos
    linarith

/-- Witness for C10 at the concrete Beta hitting the slab with draw 0. -/
theorem photon_speed_forward_witness :
    (0 : ℝ) ≤ 0 ∧ (0 : ℝ) < 1 ∧ pBetaSlab.kind = PKind.beta
    ∧ inSlab (pBetaSlab.x + pBetaSlab.vx) (pBetaSlab.y + pBetaSlab.vy)
    ∧ ((stepParticle 80 0 pBetaSlab).1.vx ^ 2 + (stepParticle 80 0 pBetaSlab).1.vy ^ 2 = 16
        ∧ 2 ≤ (stepParticle 80 0 pBetaSlab).1.vx) := by
  have hb : pBetaSlab.kind = PKind.beta := rfl
  have hs : inSlab (pBetaSlab.x + pBetaSlab.vx) (pBetaSlab.y + pBetaSlab.vy) := by
    unfold inSlab pBetaSlab
    norm_num [PMMA_X, SOURCE_X, SOURCE_TO_PMMA_CM, PX_PER_CM, PMMA_VISUAL_THICKNESS,
      CENTER_Y, CANVAS_HEIGHT, PMMA_HEIGHT]
  exact ⟨le_refl 0, by norm_num, hb, hs,
    photon_speed_forward 80 0 pBetaSlab (le_refl 0) (by norm_num) hb hs⟩

/-! ## Emitter: background photons (simulator.js spawnBackgroundParticle,
lines 58-98). The six Math.random draws appear as parameters in call
order: r0 scales the speed, r1 picks the edge, r2 the position along the
edge, r3 and r4 the two velocity components, r5 the id. -/

noncomputable def spawnBackgroundParticle (r0 r1 r2 r3 r4 r5 : ℝ) : Particle :=
  if Int.floor (r1 * 4) = 0 then
    { id := r5
      x := r2 * CANVAS_WIDTH
      y := -10
      vx := (r3 - 0.5) * (3 + r0)
      vy := r4 * (3 + r0)
      kind := PKind.backgroundPhoton
      life := 400
      history := [] }
  else if Int.floor (r1 * 4) = 1 then
    { id := r5
      x := CANVAS_WIDTH + 10
      y := r2 * CANVAS_HEIGHT
      vx := -(r3 * (3 + r0))
      vy := (r4 - 0.5) * (3 + r0)
      kind := PKind.backgroundPhoton
      life := 400
      history := [] }
  else if Int.floor (r1 * 4) = 2 then
    { id := r5
      x := r2 * CANVAS_WIDTH
      y := CANVAS_HEIGHT + 10
      vx := (r3 - 0.5) * (3 + r0)
      vy := -(r4 * (3 + r0))
      kind := PKind.backgroundPhoton
      life := 400
      history := [] }
  else
    { id := r5
      x := -10
      y := r2 * CANVAS_HEIGHT
      vx := r3 * (3 + r0)
      vy := (r4 - 0.5) * (3 + r0)
      kind := PKind.backgroundPhoton
      life := 400
      history := [] }

/-- C9 counterexample: with every draw equal to 0 (a legal Math.random
outcome) the particle spawns just outside the top edge but its
perpendicular velocity component is 0, so it does not point into the
scene: the claim's strict inwardness fails for this outcome. -/
theorem spawnBackground_zero_draw_not_inward :
    (spawnBackgroundParticle 0 0 0 0 0 0).y = -10
    ∧ ¬ (0 < (spawnBackgroundParticle 0 0 0 0 0 0).vy) := by
  have hedge : Int.floor ((0 : ℝ) * 4) = 0 := by norm_num
  unfold spawnBackgroundParticle
  rw [if_pos hedge]
  norm_num

/-- C9 (amended): every spawned BackgroundPhoton has kind BackgroundPhoton,
an empty trail and life 400, starts just outside the uniformly drawn edge
at the random position along it, and its perpendicular velocity component
is directed inward or is zero; it is strictly inward whenever the
corresponding draw is nonzero. -/
theorem spawnBackground_amended (r0 r1 r2 r3 r4 r5 : ℝ) (p : Particle)
    (hp : p = spawnBackgroundParticle r0 r1 r2 r3 r4 r5)
    (h00 : 0 ≤ r0) (h10 : 0 ≤ r1) (h11 : r1 < 1)
    (h30 : 0 ≤ r3) (h40 : 0 ≤ r4) :
    p.kind = PKind.backgroundPhoton ∧ p.history = [] ∧ p.life = 400
    ∧ ((Int.floor (r1 * 4) = 0 ∧ p.y = -10 ∧ p.x = r2 * CANVAS_WIDTH
          ∧ 0 ≤ p.vy ∧ (0 < r4 → 0 < p.vy))
      ∨ (Int.floor (r1 * 4) = 1 ∧ p.x = CANVAS_WIDTH + 10 ∧ p.y = r2 * CANVAS_HEIGHT
          ∧ p.vx ≤ 0 ∧ (0 < r3 → p.vx < 0))
      ∨ (Int.floor (r1 * 4) = 2 ∧ p.y = CANVAS_HEIGHT + 10 ∧ p.x = r2 * CANVAS_WIDTH
          ∧ p.vy ≤ 0 ∧ (0 < r4 → p.vy < 0))
      ∨ (Int.floor (r1 * 4) = 3 ∧ p.x = -10 ∧ p.y = r2 * CANVAS_HEIGHT
          ∧ 0 ≤ p.vx ∧ (0 < r3 → 0 < p.vx))) := by
  subst hp
  have hsp : (0 : ℝ) < 3 + r0 := by linarith
  have hf0 : (0 : ℤ) ≤ Int.floor (r1 * 4) := Int.floor_nonneg.mpr (by nlinarith)
  have hf4 : Int.floor (r1 * 4) < 4 := Int.floor_lt.mpr (by push_cast; nlinarith)
  have hcases : Int.floor (r1 * 4) = 0 ∨ Int.floor (r1 * 4) = 1
      ∨ Int.floor (r1 * 4) = 2 ∨ Int.floor (r1 * 4) = 3 := by omega
  unfold spawnBackgroundParticle
  rcases hcases with h | h | h | h
  · rw [if_pos h]
    exact ⟨rfl, rfl, rfl, Or.inl ⟨h, rfl, rfl, mul_nonneg h40 hsp.le,
      fun h4 => mul_pos h4 hsp⟩⟩
  · rw [if_neg (by omega), if_pos h]
    exact ⟨rfl, rfl, rfl, Or.inr (Or.inl ⟨h, rfl, rfl,
      neg_nonpos.mpr (mul_nonneg h30 hsp.le),
      fun h3 => neg_lt_zero.mpr (mul_pos h3 hsp)⟩)⟩
  · rw [if_neg (by omega), if_neg (by omega), if_pos h]
    exact ⟨rfl, rfl, rfl, Or.inr (Or.inr (Or.inl ⟨h, rfl, rfl,
      neg_nonpos.mpr (mul_nonneg h40 hsp.le),
      fun h4 => neg_lt_zero.mpr (mul_pos h4 hsp)⟩))⟩
  · rw [if_neg (by omega), if_neg (by omega), if_neg (by omega)]
    exact ⟨rfl, rfl, rfl, Or.inr (Or.inr (Or.inr ⟨h, rfl, rfl,
      mul_nonneg h30 hsp.le, fun h3 => mul_pos h3 hsp⟩))⟩

/-- Witness for C9 (amended) at the concrete draws
(0, 0, 0, 1/2, 1/2, 0): a top-edge spawn with strictly inward velocity. -/
theorem spawnBackground_amended_witness :
    ((0 : ℝ) ≤ 0 ∧ (0 : ℝ) < 1 ∧ (0 : ℝ) ≤ 1 / 2)
    ∧ (spawnBackgroundParticle 0 0 0 (1 / 2) (1 / 2) 0).kind = PKind.backgroundPhoton
    ∧ (spawnBackgroundParticle 0 0 0 (1 / 2) (1 / 2) 0).history = []
    ∧ (spawnBackgroundParticle 0 0 0 (1 / 2) (1 / 2) 0).life = 400 := by
  have h := spawnBackground_amended 0 0 0 (1 / 2) (1 / 2) 0 _ rfl (le_refl 0)
    (le_refl 0) (by norm_num) (by norm_num) (by norm_num)
  exact ⟨⟨le_refl 0, by norm_num, by norm_num⟩, h.1, h.2.1, h.2.2.1⟩

/-! ## Reset handlers of the two front-ends -/

/-- The state touched by the resetButton click listener
(simulator.js lines 352-358). -/
structure SimState where
  counts : ℕ
  doseRateDisplay : String
  particles : List Particle

/-- simulator.js reset: zero the counter, restore the background-only dose
string and empty the store. -/
def resetSim (s : SimState) : SimState :=
  { s with counts := 0, doseRateDisplay := "0.150", particles := [] }

/-- The state touched by handleReset in the React front-end. -/
structure AppState where
  counts : ℕ
  doseRate : String
  particles : List Particle

/-- React handleReset: zero the counter and empty the store; the doseRate
string is left untouched (it is only refreshed by the 500 ms sampler). -/
def handleReset (s : AppState) : AppState :=
  { s with counts := 0, particles := [] }

/-- C7 counterexample: in the React front-end, reset from a state whose
displayed dose is 0.411 leaves the displayed dose at 0.411, not at the
background-only 0.150 the claim promises for both implementations. -/
theorem handleReset_keeps_doseRate :
    (handleReset { counts := 7, doseRate := "0.411", particles := [] }).doseRate
      ≠ "0.150" := by
  decide

/-- C7 (amended): reset leaves the counter at 0 and the particle store
empty in both front-ends; the displayed dose is reset to the
background-only string 0.150 by the simulator.js listener, while the React
handleReset leaves the displayed dose unchanged. -/
theorem reset_clears_counts_and_store (s : SimState) (t : AppState) :
    (resetSim s).counts = 0 ∧ (resetSim s).particles = []
    ∧ (resetSim s).doseRateDisplay = "0.150"
    ∧ (handleReset t).counts = 0 ∧ (handleReset t).particles = []
    ∧ (handleReset t).doseRate = t.doseRate :=
  ⟨rfl, rfl, rfl, rfl, rfl, rfl⟩

/-! ## FieldSampler: the heatmap (simulator.js drawHeatmap, lines 152-186) -/

/-- The per-block field value of drawHeatmap: the code samples the dose
formula at the block's top-left corner (i * blockSize, j * blockSize),
measuring the pixel distance from there to the attenuator slab's center. -/
noncomputable def heatFieldValue (sourceOpen : Bool) (i j : ℕ) : ℝ :=
  let blockSize : ℝ := 8
  let x := (i : ℝ) * blockSize
  let y := (j : ℝ) * blockSize
  if sourceOpen then
    let pmmaCenterX := PMMA_X + PMMA_VISUAL_THICKNESS / 2
    let pmmaCenterY := CENTER_Y
    let dx := x - pmmaCenterX
    let dy := y - pmmaCenterY
    let distPx := Real.sqrt (dx * dx + dy * dy)
    let distM := max (distPx / PX_PER_CM / 100) 0.01
    B_CONST + K_CONST * Real.exp (-MU_CONST * distM) / (distM * distM)
  else B_CONST

/-- The field value the specification describes: identical except that the
sample point is the block's CENTER, half a block size beyond the corner.
This definition follows the spec's words, for comparison with
heatFieldValue taken from the code. -/
noncomputable def heatFieldValueAtCenter (sourceOpen : Bool) (i j : ℕ) : ℝ :=
  let blockSize : ℝ := 8
  let x := (i : ℝ) * blockSize + blockSize / 2
  let y := (j : ℝ) * blockSize + blockSize / 2
  if sourceOpen then
    let pmmaCenterX := PMMA_X + PMMA_VISUAL_THICKNESS / 2
    let pmmaCenterY := CENTER_Y
    let dx := x - pmmaCenterX
    let dy := y - pmmaCenterY
    let distPx := Real.sqrt (dx * dx + dy * dy)
    let distM := max (distPx / PX_PER_CM / 100) 0.01
    B_CONST + K_CONST * Real.exp (-MU_CONST * distM) / (distM * distM)
  else B_CONST

/-- The logarithmic color normalization of drawHeatmap lines 175-179. -/
noncomputable def heatT (fieldValue : ℝ) : ℝ :=
  let logVal := Real.logb 10 fieldValue
  let minLog := Real.logb 10 B_CONST
  let maxLog := Real.logb 10 50
  max 0 (min 1 ((logVal - minLog) / (maxLog - minLog)))

/-- The hue ramp of drawHeatmap line 180. -/
noncomputable def heatHue (t : ℝ) : ℝ := 240 - t * 240

/-- C8: the code disagrees with the claim's sample point. At block (0,0)
with the source open, the code's corner-sampled value (pixel distance
sqrt(55625) from the slab center) differs from the center-sampled value
the claim describes (pixel distance sqrt(53057)); by strict monotonicity
of the dose field the two doses are distinct. -/
theorem heatmap_corner_ne_center :
    heatFieldValue true 0 0 ≠ heatFieldValueAtCenter true 0 0 := by
  have h4a : (4 : ℝ) ≤ Real.sqrt 55625 := by
    rw [show (4 : ℝ) = Real.sqrt 16 by
      rw [show (16 : ℝ) = 4 ^ 2 by norm_num, Real.sqrt_sq (by norm_num)]]
    exact Real.sqrt_le_sqrt (by norm_num)
  have h4b : (4 : ℝ) ≤ Real.sqrt 53057 := by
    rw [show (4 : ℝ) = Real.sqrt 16 by
      rw [show (16 : ℝ) = 4 ^ 2 by norm_num, Real.sqrt_sq (by norm_num)]]
    exact Real.sqrt_le_sqrt (by norm_num)
  have hlea : (0.01 : ℝ) ≤ Real.sqrt 55625 / 4 / 100 := by linarith
  have hleb : (0.01 : ℝ) ≤ Real.sqrt 53057 / 4 / 100 := by linarith
  have hcorner : heatFieldValue true 0 0
      = B_CONST + K_CONST * Real.exp (-MU_CONST * (Real.sqrt 55625 / 4 / 100))
          / (Real.sqrt 55625 / 4 / 100 * (Real.sqrt 55625 / 4 / 100)) := by
    simp only [heatFieldValue, if_true]
    norm_num [PMMA_X, SOURCE_X, SOURCE_TO_PMMA_CM, PX_PER_CM, PMMA_VISUAL_THICKNESS,
      CENTER_Y, CANVAS_HEIGHT]
    rw [max_eq_left (show (1 : ℝ) / 100 ≤ Real.sqrt 55625 / 4 / 100 by linarith)]
  have hcenter : heatFieldValueAtCenter true 0 0
      = B_CONST + K_CONST * Real.exp (-MU_CONST * (Real.sqrt 53057 / 4 / 100))
          / (Real.sqrt 53057 / 4 / 100 * (Real.sqrt 53057 / 4 / 100)) := by
    simp only [heatFieldValueAtCenter, if_true]
    norm_num [PMMA_X, SOURCE_X, SOURCE_TO_PMMA_CM, PX_PER_CM, PMMA_VISUAL_THICKNESS,
      CENTER_Y, CANVAS_HEIGHT]
    rw [max_eq_left (show (1 : ℝ) / 100 ≤ Real.sqrt 53057 / 4 / 100 by linarith)]
  have hsq : Real.sqrt 53057 < Real.sqrt 55625 := Real.sqrt_lt_sqrt (by norm_num) (by norm_num)
  have hlt : B_CONST + K_CONST * Real.exp (-MU_CONST * (Real.sqrt 55625 / 4 / 100))
        / (Real.sqrt 55625 / 4 / 100 * (Real.sqrt 55625 / 4 / 100))
      < B_CONST + K_CONST * Real.exp (-MU_CONST * (Real.sqrt 53057 / 4 / 100))
        / (Real.sqrt 53057 / 4 / 100 * (Real.sqrt 53057 / 4 / 100)) := by
    have := sourceContribution_lt
      (show (0 : ℝ) < Real.sqrt 53057 / 4 / 100 by linarith)
      (show Real.sqrt 53057 / 4 / 100 < Real.sqrt 55625 / 4 / 100 by linarith)
    linarith
  rw [hcorner, hcenter]
  exact ne_of_lt hlt

end Sr90
